import Mathlib

/-!
Verification development for `file_filter_action.py`, a GitHub Action that
matches the files changed in a CI context against glob patterns.

The Python source is shallowly embedded:
* Python `str` values become Lean `String` (with `List Char` internals);
* `str.split()` / `str.strip()` become `pySplit` / `pyStrip`;
* `fnmatch.fnmatch` becomes `fnmatch`, via a token translation of the
  pattern (mirroring `fnmatch.translate`) and a whole-string matcher
  (`*` matches any run of characters, `?` one character, `[...]` classes);
  case normalisation (`os.path.normcase`) is the identity, as on POSIX;
* fallible code returns `Except`; effectful code (environment, GitHub API,
  event file, stderr/stdout, output sink) is passed explicitly as data.
-/

namespace FileFilterAction

/-- Python whitespace as used by `str.split()` / `str.strip()` (ASCII part:
space, tab, newline, carriage return, vertical tab, form feed). -/
def isSpace (c : Char) : Bool :=
  c = ' ' || c = '\t' || c = '\n' || c = '\r' || c = '\x0b' || c = '\x0c'

/-- Worker for `pySplit`: `acc` holds the current (reversed) token. -/
def pySplitAux : List Char → List Char → List (List Char)
  | [], acc => if acc.isEmpty then [] else [acc.reverse]
  | c :: cs, acc =>
    if isSpace c then
      if acc.isEmpty then pySplitAux cs [] else acc.reverse :: pySplitAux cs []
    else
      pySplitAux cs (c :: acc)

/-- Python `s.split()` with no separator: split on runs of whitespace,
discarding empty tokens. -/
def pySplit (s : List Char) : List (List Char) :=
  pySplitAux s []

/-- Python `s.strip()`: remove leading and trailing whitespace. -/
def pyStrip (s : List Char) : List Char :=
  ((s.dropWhile isSpace).reverse.dropWhile isSpace).reverse

/-- `parse_patterns` from `file_filter_action.py`:
an empty input returns `[]`; otherwise the input is split on whitespace,
each token stripped, empty tokens discarded; if no token survives, a
`ValueError` is raised (modelled as `Except.error` with the message). -/
def parse_patterns (patterns_input : String) : Except String (List String) :=
  if patterns_input = "" then
    .ok []
  else
    let patterns :=
      ((pySplit patterns_input.data).filter
        (fun p => !(pyStrip p).isEmpty)).map (fun p => String.mk (pyStrip p))
    if patterns.isEmpty then
      .error "No valid patterns found in input"
    else
      .ok patterns

/-- Tokens of a compiled glob pattern, mirroring the regex fragments
produced by `fnmatch.translate`: a literal character, `*` (any run of
characters), `?` (any single character), or a character class
(`negated` when the class began with `!`). -/
inductive GlobTok
  | lit (c : Char)
  | star
  | any
  | cls (negated : Bool) (stuff : List Char)
deriving DecidableEq

/-- Scan for the closing `]` of a character class; returns the class body
and the remainder of the pattern, or `none` when no `]` follows. -/
def scanClose : List Char → Option (List Char × List Char)
  | [] => none
  | ']' :: rest => some ([], rest)
  | c :: rest => (scanClose rest).map (fun p => (c :: p.1, p.2))

/-- Split a character class at the `[` just consumed, following
`fnmatch.translate`: a leading `!` negates; a `]` immediately after the
(possibly negated) opening is part of the body; if no closing `]` exists
the `[` is a literal (`none`). -/
def splitBracket (l : List Char) : Option (Bool × List Char × List Char) :=
  match l with
  | '!' :: ']' :: rest => (scanClose rest).map (fun p => (true, ']' :: p.1, p.2))
  | '!' :: rest => (scanClose rest).map (fun p => (true, p.1, p.2))
  | ']' :: rest => (scanClose rest).map (fun p => (false, ']' :: p.1, p.2))
  | rest => (scanClose rest).map (fun p => (false, p.1, p.2))

/-- Membership of a character in a class body: `a-b` denotes a range
(empty when `b < a`, matching nothing, as in `fnmatch`), other characters
are literals, and a trailing `-` is a literal. -/
def inSet : List Char → Char → Bool
  | a :: '-' :: b :: rest, c => (a ≤ c && c ≤ b) || inSet rest c
  | a :: rest, c => a = c || inSet rest c
  | [], _ => false

/-- Character-class membership; a leading `-` is a literal. -/
def matchCls (stuff : List Char) (c : Char) : Bool :=
  match stuff with
  | '-' :: rest => c = '-' || inSet rest c
  | _ => inSet stuff c

/-- Fuelled worker for `translate`; the fuel is the pattern length, which
suffices because every step consumes at least one character. -/
def translateAux : Nat → List Char → List GlobTok
  | 0, _ => []
  | _, [] => []
  | fuel + 1, c :: rest =>
    if c = '*' then
      .star :: translateAux fuel rest
    else if c = '?' then
      .any :: translateAux fuel rest
    else if c = '[' then
      match splitBracket rest with
      | none => .lit '[' :: translateAux fuel rest
      | some (neg, stuff, rest2) => .cls neg stuff :: translateAux fuel rest2
    else
      .lit c :: translateAux fuel rest

/-- Compile a glob pattern to tokens (mirrors `fnmatch.translate`). -/
def translate (pat : List Char) : List GlobTok :=
  translateAux pat.length pat

/-- Whole-string matching of a compiled pattern, following the regex
semantics of `fnmatch.translate`: `star` matches any run of characters
(including path separators), so `star :: ts` matches `s` exactly when
`ts` matches some suffix of `s`. -/
def globMatch : List GlobTok → List Char → Bool
  | [], s => s.isEmpty
  | .star :: ts, s => s.tails.any (fun t => globMatch ts t)
  | .any :: ts, s =>
    match s with
    | [] => false
    | _ :: cs => globMatch ts cs
  | .lit a :: ts, s =>
    match s with
    | [] => false
    | c :: cs => a = c && globMatch ts cs
  | .cls neg stuff :: ts, s =>
    match s with
    | [] => false
    | c :: cs => (neg != matchCls stuff c) && globMatch ts cs

/-- `fnmatch.fnmatch(name, pattern)` as used by `match_files`:
whole-string glob matching of `name` against `pattern` (case
normalisation is the identity on POSIX). -/
def fnmatch (name pattern : String) : Bool :=
  globMatch (translate pattern.data) name.data

/-- The inner loop of `match_files`: try the patterns in order, stopping
at the first match (`break` in the source). -/
def matchesAny (file_path : String) : List String → Bool
  | [] => false
  | pattern :: rest =>
    if fnmatch file_path pattern then true else matchesAny file_path rest

/-- `match_files` from `file_filter_action.py`: keep, in order, every
file that matches at least one pattern, appending a file once at its
first matching pattern. -/
def match_files : List String → List String → List String
  | [], _ => []
  | file_path :: rest, patterns =>
    if matchesAny file_path patterns then
      file_path :: match_files rest patterns
    else
      match_files rest patterns

/-- JSON values, as produced by `json.load` on the event file. Objects are
modelled as association lists with distinct keys. -/
inductive Jsn
  | null
  | bool (b : Bool)
  | num (n : Int)
  | str (s : String)
  | arr (elems : List Jsn)
  | obj (fields : List (String × Jsn))

/-- Outcome of one GitHub API call: a value, a `github.GithubException`,
or any other `Exception` (each carrying its message). -/
inductive ApiResult (α : Type)
  | ok (a : α)
  | ghExc (msg : String)
  | exc (msg : String)
deriving DecidableEq

/-- A pull-request object: `files` is the outcome of `pr.get_files()`
followed by the `.filename` projection. -/
structure PullRequest where
  files : ApiResult (List String)
deriving DecidableEq

/-- A repository object: `get_pull` receives the raw JSON value found at
`event_data["pull_request"]["number"]`; `compare` is
`repo.compare(base, head)` followed by the `.filename` projection. -/
structure Repo where
  get_pull : Jsn → ApiResult PullRequest
  compare : String → String → ApiResult (List String)

/-- The GitHub client: `get_repo` by full name. -/
structure Github where
  get_repo : String → ApiResult Repo

/-- Outcome of `open(os.environ["GITHUB_EVENT_PATH"])` + `json.load`:
the file may be missing (`FileNotFoundError`), unparseable
(`json.JSONDecodeError`), unreadable for another reason (any other
exception), or yield a JSON value. -/
inductive EventRead
  | fileNotFound
  | decodeError
  | otherExc (msg : String)
  | ok (event_data : Jsn)

/-- Python exceptions raised by subscripting / membership tests. -/
inductive PyErr
  | keyError
  | typeError
deriving DecidableEq

/-- Substring test on character lists (Python `needle in hay` for `str`). -/
def strContains (needle : List Char) : List Char → Bool
  | [] => needle.isEmpty
  | c :: t => needle.isPrefixOf (c :: t) || strContains needle t

/-- Python `k in j` on a JSON value: key test on a dict, membership on a
list, substring test on a string; `TypeError` otherwise. -/
def py_contains (j : Jsn) (k : String) : Except PyErr Bool :=
  match j with
  | .obj kvs => .ok (kvs.any (fun kv => kv.1 = k))
  | .arr xs => .ok (xs.any (fun x => match x with | .str s => s = k | _ => false))
  | .str s => .ok (strContains k.data s.data)
  | _ => .error .typeError

/-- Python `j[k]` for a string key: lookup on a dict (`KeyError` when the
key is absent); `TypeError` on any other JSON value. -/
def py_getitem (j : Jsn) (k : String) : Except PyErr Jsn :=
  match j with
  | .obj kvs =>
    match kvs.find? (fun kv => kv.1 = k) with
    | some kv => .ok kv.2
    | none => .error .keyError
  | _ => .error .typeError

/-- An exception escaping the PR-context block of `get_changed_files`:
a `github.GithubException` or any other `Exception`. -/
inductive Exc
  | gh (msg : String)
  | other (msg : String)
deriving DecidableEq

/-- How the PR-context block of `get_changed_files` finishes: `return`
with a file list, fall through to the ref-comparison path (either because
the block was skipped or because the inner `except (FileNotFoundError,
KeyError, json.JSONDecodeError)` swallowed the failure), or an exception
escaping to the outer handler. -/
inductive PrFlow
  | ret (files : List String)
  | fallthrough
  | raise (e : Exc)
deriving DecidableEq

/-- The PR-context block of `get_changed_files` (lines 35-46 of the
source): guarded by `GITHUB_EVENT_PATH` being set; reads and parses the
event file; on a `pull_request` key, fetches the PR and returns its
files. `FileNotFoundError`, `KeyError` and `json.JSONDecodeError` are
swallowed (fall through); a `TypeError` from subscripting a non-dict and
any exception from the API calls escape to the outer handler. -/
def prStep (repo : Repo) (event_path : Option String) (ev : EventRead) : PrFlow :=
  match event_path with
  | none => .fallthrough
  | some _ =>
    match ev with
    | .fileNotFound => .fallthrough
    | .decodeError => .fallthrough
    | .otherExc m => .raise (.other m)
    | .ok event_data =>
      match py_contains event_data "pull_request" with
      | .error _ => .raise (.other "TypeError")
      | .ok false => .fallthrough
      | .ok true =>
        match py_getitem event_data "pull_request" with
        | .error .keyError => .fallthrough
        | .error .typeError => .raise (.other "TypeError")
        | .ok pr_obj =>
          match py_getitem pr_obj "number" with
          | .error .keyError => .fallthrough
          | .error .typeError => .raise (.other "TypeError")
          | .ok pr_number =>
            match repo.get_pull pr_number with
            | .ghExc m => .raise (.gh m)
            | .exc m => .raise (.other m)
            | .ok pr =>
              match pr.files with
              | .ghExc m => .raise (.gh m)
              | .exc m => .raise (.other m)
              | .ok files => .ret files

/-- Python truthiness test `not x` for an optional string: true for
`None` and for the empty string. -/
def falsyStr : Option String → Bool
  | none => true
  | some s => s = ""

/-- Resolution of the base ref (line 49-50): a falsy argument falls back
to `GITHUB_BASE_REF`, else to the literal `"main"`. -/
def resolve_base_ref (base_ref : Option String) (env : String → Option String) : String :=
  if falsyStr base_ref then (env "GITHUB_BASE_REF").getD "main" else base_ref.getD ""

/-- Resolution of the head ref (line 52-53): a falsy argument falls back
to `GITHUB_HEAD_REF`, else to `GITHUB_SHA` (which may be absent). -/
def resolve_head_ref (head_ref : Option String) (env : String → Option String) : Option String :=
  if falsyStr head_ref then
    match env "GITHUB_HEAD_REF" with
    | some h => some h
    | none => env "GITHUB_SHA"
  else head_ref

/-- The stderr line printed by the outer `except` clauses of
`get_changed_files`. -/
def excLog : Exc → String
  | .gh m => "GitHub API error: " ++ m
  | .other m => "Error getting changed files: " ++ m

/-- Result of `get_changed_files`: the returned list and the lines
printed to stderr. -/
structure GcfResult where
  files : List String
  stderr : List String
deriving DecidableEq

/-- `get_changed_files` from `file_filter_action.py`: get the repository,
try the PR-context block, otherwise compare resolved base and head refs;
a falsy resolved head yields a warning and `[]`; any
`github.GithubException` or other exception reaching the outer handler
is logged to stderr and converted to `[]`. -/
def get_changed_files (github_client : Github) (repo_name : String)
    (base_ref head_ref : Option String)
    (env : String → Option String) (ev : EventRead) : GcfResult :=
  match github_client.get_repo repo_name with
  | .ghExc m => ⟨[], [excLog (.gh m)]⟩
  | .exc m => ⟨[], [excLog (.other m)]⟩
  | .ok repo =>
    match prStep repo (env "GITHUB_EVENT_PATH") ev with
    | .ret files => ⟨files, []⟩
    | .raise e => ⟨[], [excLog e]⟩
    | .fallthrough =>
      let base := resolve_base_ref base_ref env
      let head := resolve_head_ref head_ref env
      if falsyStr head then
        ⟨[], ["Warning: Could not determine changed files"]⟩
      else
        match repo.compare base (head.getD "") with
        | .ok files => ⟨files, []⟩
        | .ghExc m => ⟨[], [excLog (.gh m)]⟩
        | .exc m => ⟨[], [excLog (.other m)]⟩

/-- A line emitted by `set_output`: appended to the `GITHUB_OUTPUT` file,
or printed to stdout in the legacy `::set-output` format. -/
inductive OutLine
  | file (line : String)
  | legacy (line : String)
deriving DecidableEq

/-- `set_output` from `file_filter_action.py`: when `GITHUB_OUTPUT` is
set, append `name=value` to that file; otherwise print the legacy
single-line format to stdout. File writes are modelled as always
succeeding. -/
def set_output (env : String → Option String) (name value : String) : OutLine :=
  if (env "GITHUB_OUTPUT").isSome then
    .file (name ++ "=" ++ value)
  else
    .legacy ("::set-output name=" ++ name ++ "::" ++ value)

/-- Lowercase hexadecimal digit, as used by `json.dumps` escapes. -/
def hexDigit (n : Nat) : Char :=
  if n < 10 then Char.ofNat (48 + n) else Char.ofNat (87 + n)

/-- A `\uXXXX` escape for a code unit below `0x10000`. -/
def uEscape4 (n : Nat) : List Char :=
  ['\\', 'u', hexDigit (n / 4096 % 16), hexDigit (n / 256 % 16),
   hexDigit (n / 16 % 16), hexDigit (n % 16)]

/-- A `\uXXXX` escape (surrogate pair above `0xFFFF`), as emitted by
`json.dumps` with its default `ensure_ascii=True`. -/
def uEscape (c : Char) : List Char :=
  let n := c.toNat
  if n < 0x10000 then uEscape4 n
  else
    let m := n - 0x10000
    uEscape4 (0xd800 + m / 1024) ++ uEscape4 (0xdc00 + m % 1024)

/-- Escaping of one character inside a `json.dumps` string literal. -/
def jsonEscapeChar (c : Char) : List Char :=
  if c = '"' then ['\\', '"']
  else if c = '\\' then ['\\', '\\']
  else if c = '\n' then ['\\', 'n']
  else if c = '\r' then ['\\', 'r']
  else if c = '\t' then ['\\', 't']
  else if c = '\x08' then ['\\', 'b']
  else if c = '\x0c' then ['\\', 'f']
  else if c.toNat < 0x20 || c.toNat > 0x7e then uEscape c
  else [c]

/-- `json.dumps` of one string (double-quoted, escaped). -/
def json_dumps_str (s : String) : String :=
  "\"" ++ String.mk (s.data.map jsonEscapeChar).flatten ++ "\""

/-- `json.dumps` of a list of strings, with the default `", "` separator. -/
def json_dumps_list (l : List String) : String :=
  "[" ++ String.intercalate ", " (l.map json_dumps_str) ++ "]"

/-- Escaping of one character inside Python `repr` of a string
(single-quoted form; the common escapes, sufficient for the log lines
modelled here). -/
def reprEscapeChar (c : Char) : List Char :=
  if c = '\\' then ['\\', '\\']
  else if c = '\'' then ['\\', '\'']
  else if c = '\n' then ['\\', 'n']
  else if c = '\r' then ['\\', 'r']
  else if c = '\t' then ['\\', 't']
  else [c]

/-- Python `repr` of a string, single-quoted form. -/
def py_repr_str (s : String) : String :=
  "'" ++ String.mk (s.data.map reprEscapeChar).flatten ++ "'"

/-- Python `repr` of a list of strings, as interpolated by the `print`
calls in `main`. -/
def py_repr_list (l : List String) : String :=
  "[" ++ String.intercalate ", " (l.map py_repr_str) ++ "]"

/-- `os.environ.get('INPUT_PATTERNS', '')` in `main`. -/
def input_patterns (env : String → Option String) : String :=
  (env "INPUT_PATTERNS").getD ""

/-- `os.environ.get('INPUT_TOKEN', os.environ.get('GITHUB_TOKEN', ''))`
in `main`: `INPUT_TOKEN` takes precedence even when set to `""`. -/
def main_token (env : String → Option String) : String :=
  match env "INPUT_TOKEN" with
  | some t => t
  | none => (env "GITHUB_TOKEN").getD ""

/-- `os.environ.get('GITHUB_REPOSITORY', '')` in `main`. -/
def main_repo_name (env : String → Option String) : String :=
  (env "GITHUB_REPOSITORY").getD ""

/-- Observable outcome of one run of `main`: the process exit code and
the lines written to stdout, stderr and the `GITHUB_OUTPUT` file. -/
structure MainResult where
  exitCode : Nat
  stdout : List String
  stderr : List String
  outputFile : List String
deriving DecidableEq

/-- `main` from `file_filter_action.py`: read inputs from the
environment; validate patterns text, token, then repository name (first
failure prints to stderr and exits 1); parse the patterns (a
`ValueError` is caught by the outer handler: message to stderr, exit 1);
resolve the changed files, match them, print the logs, emit the three
outputs and exit 0. `sys.exit` raises `SystemExit`, which the outer
`except Exception` does not catch. The GitHub client behaviour and the
event-file read outcome are passed in as data. -/
def main (env : String → Option String) (github_client : Github)
    (ev : EventRead) : MainResult :=
  let patterns_input := input_patterns env
  let token := main_token env
  let base_ref := env "INPUT_BASE_REF"
  let head_ref := env "INPUT_HEAD_REF"
  let repo_name := main_repo_name env
  if patterns_input = "" then
    ⟨1, [], ["Error: No patterns provided"], []⟩
  else if token = "" then
    ⟨1, [], ["Error: No GitHub token provided"], []⟩
  else if repo_name = "" then
    ⟨1, [], ["Error: No repository name found"], []⟩
  else
    match parse_patterns patterns_input with
    | .error msg => ⟨1, [], ["Error: " ++ msg], []⟩
    | .ok patterns =>
      let gcf := get_changed_files github_client repo_name base_ref head_ref env ev
      let matched_files := match_files gcf.files patterns
      let outs := [set_output env "matches" (if matched_files.isEmpty then "false" else "true"),
                   set_output env "count" (toString matched_files.length),
                   set_output env "files" (json_dumps_list matched_files)]
      { exitCode := 0
        stdout := ["Parsed patterns: " ++ py_repr_list patterns,
                   "Matched files: " ++ py_repr_list matched_files,
                   "Has matches: " ++ (if matched_files.isEmpty then "False" else "True")]
          ++ outs.filterMap (fun o => match o with | .legacy l => some l | _ => none)
        stderr := gcf.stderr
        outputFile := outs.filterMap (fun o => match o with | .file l => some l | _ => none) }

/-- The error carried by an `ApiResult`, if any, as the exception it
raises in the client. -/
def apiErr {α : Type} : ApiResult α → Option Exc
  | .ok _ => none
  | .ghExc m => some (.gh m)
  | .exc m => some (.other m)

example : parse_patterns "*.py *.js *.md" = .ok ["*.py", "*.js", "*.md"] := rfl
example : parse_patterns "" = .ok [] := rfl
example : parse_patterns "   " = .error "No valid patterns found in input" := rfl
example : fnmatch "src/main.py" "*.py" = true := by decide
example : fnmatch "docs/README.md" "docs/**" = true := by decide
example : fnmatch "package.json" "*.py" = false := by decide
example : fnmatch "src/backend/api/views.py" "src/backend/**/*.py" = true := by decide
example : fnmatch "src/frontend/components/Button.tsx" "src/backend/**/*.py" = false := by decide
example : fnmatch "abc" "a[b!]c" = true := by decide
example : fnmatch "a!c" "a[!b]c" = true := by decide
example : fnmatch "abc" "a[!b]c" = false := by decide
example : fnmatch "amc" "a[b-z]c" = true := by decide
example : fnmatch "aXc" "a[b-z]c" = false := by decide
example : fnmatch "a[c" "a[c" = true := by decide
example : fnmatch "axc" "a?c" = true := by decide



/-! ### Lemmas about the pattern matcher -/

theorem matchesAny_eq_any (f : String) (ps : List String) :
    matchesAny f ps = ps.any (fun p => fnmatch f p) := by
  induction ps with
  | nil => rfl
  | cons p ps ih =>
    by_cases h : fnmatch f p <;> simp [matchesAny, h, ih]

theorem match_files_eq_filter (files ps : List String) :
    match_files files ps = files.filter (fun f => matchesAny f ps) := by
  induction files with
  | nil => rfl
  | cons f fs ih =>
    by_cases h : matchesAny f ps <;> simp [match_files, List.filter_cons, h, ih]

theorem match_files_eq_filter_any (files ps : List String) :
    match_files files ps
      = files.filter (fun f => ps.any (fun p => fnmatch f p)) := by
  rw [match_files_eq_filter]
  simp only [matchesAny_eq_any]

/-- C10: for every list of patterns, `match_files` applied to an empty
list of files returns the empty list. -/
theorem c10_match_files_empty_files (patterns : List String) :
    match_files [] patterns = [] := rfl

/-- C1: for every list of files and every non-empty list of patterns,
`match_files` returns exactly the files matching at least one pattern
(the first matching pattern short-circuits without affecting the output,
which coincides with filtering by "some pattern matches"), the output is
a subsequence of the input, and each input occurrence of a file yields
at most one output occurrence. Proved for all pattern lists, non-empty
ones in particular. -/
theorem c1_match_files_subsequence (files patterns : List String) :
    match_files files patterns
        = files.filter (fun f => patterns.any (fun p => fnmatch f p))
      ∧ (match_files files patterns).Sublist files
      ∧ ∀ f : String, (match_files files patterns).count f ≤ files.count f := by
  refine ⟨match_files_eq_filter_any files patterns, ?_, ?_⟩
  · rw [match_files_eq_filter_any]
    exact List.filter_sublist files
  · intro f
    have h : (match_files files patterns).Sublist files := by
      rw [match_files_eq_filter_any]
      exact List.filter_sublist files
    exact h.count_le f

/-- C7: `match_files` is idempotent in its file argument: re-matching its
own output with the same patterns returns the output unchanged. -/
theorem c7_match_files_idempotent (files patterns : List String) :
    match_files (match_files files patterns) patterns
      = match_files files patterns := by
  rw [match_files_eq_filter_any, match_files_eq_filter_any, List.filter_filter]
  simp


/-! ### Lemmas about the glob engine -/

theorem globMatch_lits (q : List Char) :
    globMatch (q.map GlobTok.lit) q = true := by
  induction q with
  | nil => rfl
  | cons c cs ih => simp [globMatch, ih]

theorem globMatch_star_of_suffix (ts : List GlobTok) (u t : List Char)
    (h : globMatch ts t = true) :
    globMatch (.star :: ts) (u ++ t) = true := by
  simp only [globMatch, List.any_eq_true]
  exact ⟨t, (List.mem_tails t (u ++ t)).2 (List.suffix_append u t), h⟩

/-- C3: patterns are applied to the full path as a whole-string glob in
which `*` crosses path separators: any string extended with `".py"`
matches `"*.py"`, and on the spec's Scenario A inputs `match_files`
returns exactly the three expected paths. -/
theorem c3_whole_string_glob :
    (∀ s : String, fnmatch (s ++ ".py") "*.py" = true)
      ∧ match_files
          ["src/main.py", "tests/test_main.py", "docs/README.md",
           "package.json", "src/components/Button.js"]
          ["*.py", "docs/**"]
        = ["src/main.py", "tests/test_main.py", "docs/README.md"] := by
  constructor
  · intro s
    show globMatch (translate "*.py".data) (s ++ ".py").data = true
    have h1 : translate "*.py".data = .star :: (".py".data.map GlobTok.lit) := rfl
    have h2 : (s ++ ".py").data = s.data ++ ".py".data := rfl
    rw [h1, h2]
    exact globMatch_star_of_suffix _ s.data ".py".data (globMatch_lits ".py".data)
  · decide

/-! ### Lemmas about `pySplit`, `pyStrip` and `parse_patterns` -/

theorem pySplitAux_cons_ne_nil (s : List Char) :
    ∀ a acc, pySplitAux s (a :: acc) ≠ [] := by
  induction s with
  | nil => intro a acc; simp [pySplitAux]
  | cons c cs ih =>
    intro a acc
    by_cases hsp : isSpace c <;> simp [pySplitAux, hsp]
    · exact ih c (a :: acc)

theorem pySplitAux_tokens (s : List Char) :
    ∀ acc, (∀ c ∈ acc, isSpace c = false) →
      ∀ t ∈ pySplitAux s acc, t ≠ [] ∧ ∀ c ∈ t, isSpace c = false := by
  induction s with
  | nil =>
    intro acc hacc t ht
    match acc with
    | [] => simp [pySplitAux] at ht
    | a :: as =>
      simp [pySplitAux] at ht
      subst ht
      refine ⟨by simp, ?_⟩
      intro c hc
      exact hacc c (by simpa [or_comm] using hc)
  | cons ch cs ih =>
    intro acc hacc t ht
    by_cases hsp : isSpace ch
    · match acc with
      | [] =>
        simp [pySplitAux, hsp] at ht
        exact ih [] (by simp) t ht
      | a :: as =>
        simp [pySplitAux, hsp] at ht
        rcases ht with ht | ht
        · subst ht
          refine ⟨by simp, ?_⟩
          intro c hc
          exact hacc c (by simpa [or_comm] using hc)
        · exact ih [] (by simp) t ht
    · simp only [pySplitAux, hsp, if_neg, Bool.false_eq_true, ite_false] at ht
      refine ih (ch :: acc) ?_ t ht
      intro c hc
      rcases List.mem_cons.1 hc with hc | hc
      · subst hc; exact Bool.eq_false_iff.2 hsp
      · exact hacc c hc

theorem pySplit_tokens (s : List Char) :
    ∀ t ∈ pySplit s, t ≠ [] ∧ ∀ c ∈ t, isSpace c = false :=
  pySplitAux_tokens s [] (by simp)

theorem pySplit_eq_nil_iff (s : List Char) :
    pySplit s = [] ↔ ∀ c ∈ s, isSpace c = true := by
  induction s with
  | nil => simp [pySplit, pySplitAux]
  | cons c cs ih =>
    by_cases hsp : isSpace c
    · simpa [pySplit, pySplitAux, hsp] using ih
    · simp only [pySplit, pySplitAux, hsp, Bool.false_eq_true, ite_false]
      constructor
      · intro h
        exact absurd h (pySplitAux_cons_ne_nil cs c [])
      · intro h
        exact absurd (h c (by simp)) (by simpa using hsp)

theorem dropWhile_eq_self_of_none {p : Char → Bool} {l : List Char}
    (h : ∀ c ∈ l, p c = false) : l.dropWhile p = l := by
  cases l with
  | nil => rfl
  | cons a as => simp [List.dropWhile_cons, h a (by simp)]

theorem pyStrip_eq_self {l : List Char} (h : ∀ c ∈ l, isSpace c = false) :
    pyStrip l = l := by
  unfold pyStrip
  rw [dropWhile_eq_self_of_none h,
    dropWhile_eq_self_of_none (by intro c hc; exact h c (by simpa using hc)),
    List.reverse_reverse]

theorem parse_patterns_ok_of_nonspace {s : String}
    (h : ∃ c ∈ s.data, isSpace c = false) :
    parse_patterns s = .ok ((pySplit s.data).map String.mk) := by
  obtain ⟨c, hc, hcs⟩ := h
  have hne : s ≠ "" := by
    intro he
    subst he
    simp at hc
  have htok := pySplit_tokens s.data
  have hfil : ((pySplit s.data).filter (fun p => !(pyStrip p).isEmpty))
      = pySplit s.data := by
    apply List.filter_eq_self.2
    intro t ht
    rw [pyStrip_eq_self (htok t ht).2]
    simpa using (htok t ht).1
  have hmap : ((pySplit s.data).filter
        (fun p => !(pyStrip p).isEmpty)).map (fun p => String.mk (pyStrip p))
      = (pySplit s.data).map String.mk := by
    rw [hfil]
    apply List.map_congr_left
    intro t ht
    rw [pyStrip_eq_self (htok t ht).2]
  have hsplit : pySplit s.data ≠ [] := by
    intro h0
    have := (pySplit_eq_nil_iff s.data).1 h0 c hc
    rw [this] at hcs
    simp at hcs
  simp only [parse_patterns, hne, ite_false, if_neg hne, hmap]
  rw [if_neg]
  simp [hsplit]

theorem parse_patterns_error_iff (s : String) :
    (∃ e, parse_patterns s = .error e)
      ↔ s ≠ "" ∧ ∀ c ∈ s.data, isSpace c = true := by
  constructor
  · rintro ⟨e, he⟩
    by_cases hne : s = ""
    · subst hne
      simp [parse_patterns] at he
    · refine ⟨hne, ?_⟩
      by_contra hall
      push_neg at hall
      obtain ⟨c, hc, hcs⟩ := hall
      rw [parse_patterns_ok_of_nonspace ⟨c, hc, Bool.eq_false_iff.2 hcs⟩] at he
      exact Except.noConfusion he
  · rintro ⟨hne, hall⟩
    refine ⟨"No valid patterns found in input", ?_⟩
    have hsplit : pySplit s.data = [] := (pySplit_eq_nil_iff s.data).2 hall
    simp [parse_patterns, hne, hsplit]

/-- C4: `parse_patterns` returns `[]` on the empty string, fails with the
validation error exactly on non-empty all-whitespace input, and on any
input with a non-whitespace character returns the whitespace-separated
tokens in order. -/
theorem c4_parse_patterns_contract :
    parse_patterns "" = .ok []
      ∧ (∀ s : String, (∃ e, parse_patterns s = .error e)
          ↔ s ≠ "" ∧ ∀ c ∈ s.data, isSpace c = true)
      ∧ ∀ s : String, (∃ c ∈ s.data, isSpace c = false) →
          parse_patterns s = .ok ((pySplit s.data).map String.mk) :=
  ⟨rfl, parse_patterns_error_iff, fun _ h => parse_patterns_ok_of_nonspace h⟩

theorem c4_witness :
    (∃ c ∈ "a b".data, isSpace c = false)
      ∧ parse_patterns "a b" = .ok ((pySplit "a b".data).map String.mk)
      ∧ (pySplit "a b".data).map String.mk = ["a", "b"] :=
  ⟨by decide, c4_parse_patterns_contract.2.2 "a b" (by decide), by decide⟩

/-- C8: whenever `parse_patterns` returns a list, every element is a
non-empty string containing no whitespace characters. -/
theorem c8_parse_patterns_tokens (s : String) (l : List String)
    (h : parse_patterns s = .ok l) :
    ∀ t ∈ l, t ≠ "" ∧ t.data.all (fun c => !isSpace c) = true := by
  intro t ht
  by_cases hne : s = ""
  · subst hne
    simp only [parse_patterns, ite_true, if_pos rfl] at h
    cases h
    simp at ht
  · have htok := pySplit_tokens s.data
    simp only [parse_patterns, hne, ite_false, if_neg hne] at h
    by_cases hemp : (((pySplit s.data).filter
        (fun p => !(pyStrip p).isEmpty)).map (fun p => String.mk (pyStrip p))).isEmpty
    · rw [if_pos hemp] at h
      exact Except.noConfusion h
    · rw [if_neg hemp] at h
      cases h
      obtain ⟨p, hp, hpt⟩ := List.mem_map.1 ht
      have hpmem : p ∈ pySplit s.data := List.mem_of_mem_filter hp
      have hprop := htok p hpmem
      rw [pyStrip_eq_self hprop.2] at hpt
      subst hpt
      refine ⟨?_, ?_⟩
      · intro h0
        have : p = [] := by
          have := congrArg String.data h0
          simpa using this
        exact hprop.1 this
      · simp only [List.all_eq_true]
        intro c hc
        simp [hprop.2 c hc]

theorem c8_witness :
    parse_patterns "ab cd" = .ok ["ab", "cd"]
      ∧ ("ab" ≠ "" ∧ "ab".data.all (fun c => !isSpace c) = true) :=
  ⟨rfl, c8_parse_patterns_tokens "ab cd" ["ab", "cd"] rfl "ab" (by decide)⟩

/-! ### Lemmas about `get_changed_files` -/

theorem resolve_base_ref_empty (env : String → Option String) :
    resolve_base_ref (some "") env = resolve_base_ref none env := rfl

theorem resolve_head_ref_empty (env : String → Option String) :
    resolve_head_ref (some "") env = resolve_head_ref none env := rfl

/-- C9: an explicit empty-string base or head override behaves exactly
like an absent override: the resolution falls back to the environment
defaults (`GITHUB_BASE_REF` else `"main"`; `GITHUB_HEAD_REF` else
`GITHUB_SHA`), so the empty string never reaches the comparison call. -/
theorem c9_empty_ref_like_absent (gh : Github) (repo_name : String)
    (env : String → Option String) (ev : EventRead) :
    (∀ hr : Option String, get_changed_files gh repo_name (some "") hr env ev
        = get_changed_files gh repo_name none hr env ev)
      ∧ (∀ br : Option String, get_changed_files gh repo_name br (some "") env ev
        = get_changed_files gh repo_name br none env ev)
      ∧ resolve_base_ref (some "") env = (env "GITHUB_BASE_REF").getD "main"
      ∧ resolve_head_ref (some "") env
        = (match env "GITHUB_HEAD_REF" with
           | some h => some h
           | none => env "GITHUB_SHA") := by
  refine ⟨fun hr => ?_, fun br => ?_, rfl, rfl⟩
  · simp only [get_changed_files, resolve_base_ref_empty]
  · simp only [get_changed_files, resolve_head_ref_empty]

theorem gcf_get_repo_err (gh : Github) (repo_name : String)
    (base_ref head_ref : Option String) (env : String → Option String)
    (ev : EventRead) (e : Exc) (h : apiErr (gh.get_repo repo_name) = some e) :
    get_changed_files gh repo_name base_ref head_ref env ev = ⟨[], [excLog e]⟩ := by
  cases hr : gh.get_repo repo_name with
  | ok r => rw [hr] at h; exact Option.noConfusion (h.symm.trans rfl)
  | ghExc m =>
    rw [hr] at h
    simp only [apiErr, Option.some.injEq] at h
    subst h
    simp [get_changed_files, hr]
  | exc m =>
    rw [hr] at h
    simp only [apiErr, Option.some.injEq] at h
    subst h
    simp [get_changed_files, hr]

theorem gcf_prStep_raise (gh : Github) (repo_name : String)
    (base_ref head_ref : Option String) (env : String → Option String)
    (ev : EventRead) (repo : Repo) (e : Exc)
    (hr : gh.get_repo repo_name = .ok repo)
    (hp : prStep repo (env "GITHUB_EVENT_PATH") ev = .raise e) :
    get_changed_files gh repo_name base_ref head_ref env ev = ⟨[], [excLog e]⟩ := by
  simp [get_changed_files, hr, hp]

theorem gcf_prStep_ret (gh : Github) (repo_name : String)
    (base_ref head_ref : Option String) (env : String → Option String)
    (ev : EventRead) (repo : Repo) (files : List String)
    (hr : gh.get_repo repo_name = .ok repo)
    (hp : prStep repo (env "GITHUB_EVENT_PATH") ev = .ret files) :
    get_changed_files gh repo_name base_ref head_ref env ev = ⟨files, []⟩ := by
  simp [get_changed_files, hr, hp]

theorem gcf_compare_err (gh : Github) (repo_name : String)
    (base_ref head_ref : Option String) (env : String → Option String)
    (ev : EventRead) (repo : Repo) (e : Exc)
    (hr : gh.get_repo repo_name = .ok repo)
    (hp : prStep repo (env "GITHUB_EVENT_PATH") ev = .fallthrough)
    (hh : falsyStr (resolve_head_ref head_ref env) = false)
    (hc : apiErr (repo.compare (resolve_base_ref base_ref env)
      ((resolve_head_ref head_ref env).getD "")) = some e) :
    get_changed_files gh repo_name base_ref head_ref env ev = ⟨[], [excLog e]⟩ := by
  cases hcmp : repo.compare (resolve_base_ref base_ref env)
      ((resolve_head_ref head_ref env).getD "") with
  | ok fs => rw [hcmp] at hc; exact Option.noConfusion hc
  | ghExc m =>
    rw [hcmp] at hc
    simp only [apiErr, Option.some.injEq] at hc
    subst hc
    simp [get_changed_files, hr, hp, hh, hcmp]
  | exc m =>
    rw [hcmp] at hc
    simp only [apiErr, Option.some.injEq] at hc
    subst hc
    simp [get_changed_files, hr, hp, hh, hcmp]

theorem gcf_compare_ok (gh : Github) (repo_name : String)
    (base_ref head_ref : Option String) (env : String → Option String)
    (ev : EventRead) (repo : Repo) (files : List String)
    (hr : gh.get_repo repo_name = .ok repo)
    (hp : prStep repo (env "GITHUB_EVENT_PATH") ev = .fallthrough)
    (hh : falsyStr (resolve_head_ref head_ref env) = false)
    (hc : repo.compare (resolve_base_ref base_ref env)
      ((resolve_head_ref head_ref env).getD "") = .ok files) :
    get_changed_files gh repo_name base_ref head_ref env ev = ⟨files, []⟩ := by
  simp [get_changed_files, hr, hp, hh, hc]

theorem prStep_get_pull_err (repo : Repo) (p : String) (j pr_obj num : Jsn)
    (e : Exc)
    (hc : py_contains j "pull_request" = .ok true)
    (h1 : py_getitem j "pull_request" = .ok pr_obj)
    (h2 : py_getitem pr_obj "number" = .ok num)
    (hp : apiErr (repo.get_pull num) = some e) :
    prStep repo (some p) (.ok j) = .raise e := by
  cases hpull : repo.get_pull num with
  | ok pr => rw [hpull] at hp; exact Option.noConfusion hp
  | ghExc m =>
    rw [hpull] at hp
    simp only [apiErr, Option.some.injEq] at hp
    subst hp
    simp [prStep, hc, h1, h2, hpull]
  | exc m =>
    rw [hpull] at hp
    simp only [apiErr, Option.some.injEq] at hp
    subst hp
    simp [prStep, hc, h1, h2, hpull]

theorem prStep_files_err (repo : Repo) (p : String) (j pr_obj num : Jsn)
    (pr : PullRequest) (e : Exc)
    (hc : py_contains j "pull_request" = .ok true)
    (h1 : py_getitem j "pull_request" = .ok pr_obj)
    (h2 : py_getitem pr_obj "number" = .ok num)
    (hpull : repo.get_pull num = .ok pr)
    (hf : apiErr pr.files = some e) :
    prStep repo (some p) (.ok j) = .raise e := by
  cases hfl : pr.files with
  | ok fs => rw [hfl] at hf; exact Option.noConfusion hf
  | ghExc m =>
    rw [hfl] at hf
    simp only [apiErr, Option.some.injEq] at hf
    subst hf
    simp [prStep, hc, h1, h2, hpull, hfl]
  | exc m =>
    rw [hfl] at hf
    simp only [apiErr, Option.some.injEq] at hf
    subst hf
    simp [prStep, hc, h1, h2, hpull, hfl]

theorem prStep_fileNotFound (repo : Repo) (p : String) :
    prStep repo (some p) .fileNotFound = .fallthrough := rfl

theorem prStep_decodeError (repo : Repo) (p : String) :
    prStep repo (some p) .decodeError = .fallthrough := rfl

theorem prStep_no_key (repo : Repo) (p : String) (j : Jsn)
    (hc : py_contains j "pull_request" = .ok false) :
    prStep repo (some p) (.ok j) = .fallthrough := by
  simp [prStep, hc]

theorem prStep_missing_number (repo : Repo) (p : String) (j pr_obj : Jsn)
    (hc : py_contains j "pull_request" = .ok true)
    (h1 : py_getitem j "pull_request" = .ok pr_obj)
    (h2 : py_getitem pr_obj "number" = .error .keyError) :
    prStep repo (some p) (.ok j) = .fallthrough := by
  simp [prStep, hc, h1, h2]

/-- C6: `get_changed_files` absorbs every client error: an error from
`get_repo`, an exception escaping the PR-context block (as raised by
`get_pull` / `get_files`, see the last two conjuncts), or an error from
`compare` is logged to stderr and converted to the empty file list. The
function is total in the model, so no exception escapes its boundary. -/
theorem c6_client_errors_absorbed (gh : Github) (repo_name : String)
    (base_ref head_ref : Option String) (env : String → Option String)
    (ev : EventRead) :
    (∀ e, apiErr (gh.get_repo repo_name) = some e →
        get_changed_files gh repo_name base_ref head_ref env ev
          = ⟨[], [excLog e]⟩)
  ∧ (∀ repo e, gh.get_repo repo_name = .ok repo →
        prStep repo (env "GITHUB_EVENT_PATH") ev = .raise e →
        get_changed_files gh repo_name base_ref head_ref env ev
          = ⟨[], [excLog e]⟩)
  ∧ (∀ repo e, gh.get_repo repo_name = .ok repo →
        prStep repo (env "GITHUB_EVENT_PATH") ev = .fallthrough →
        falsyStr (resolve_head_ref head_ref env) = false →
        apiErr (repo.compare (resolve_base_ref base_ref env)
          ((resolve_head_ref head_ref env).getD "")) = some e →
        get_changed_files gh repo_name base_ref head_ref env ev
          = ⟨[], [excLog e]⟩)
  ∧ (∀ repo p j pr_obj num e,
        py_contains j "pull_request" = .ok true →
        py_getitem j "pull_request" = .ok pr_obj →
        py_getitem pr_obj "number" = .ok num →
        apiErr (Repo.get_pull repo num) = some e →
        prStep repo (some p) (.ok j) = .raise e)
  ∧ (∀ repo p j pr_obj num pr e,
        py_contains j "pull_request" = .ok true →
        py_getitem j "pull_request" = .ok pr_obj →
        py_getitem pr_obj "number" = .ok num →
        Repo.get_pull repo num = .ok pr →
        apiErr pr.files = some e →
        prStep repo (some p) (.ok j) = .raise e) := by
  refine ⟨?_, ?_, ?_, ?_, ?_⟩
  · intro e he
    exact gcf_get_repo_err gh repo_name base_ref head_ref env ev e he
  · intro repo e hr hp
    exact gcf_prStep_raise gh repo_name base_ref head_ref env ev repo e hr hp
  · intro repo e hr hp hh hc
    exact gcf_compare_err gh repo_name base_ref head_ref env ev repo e hr hp hh hc
  · intro repo p j pr_obj num e hc h1 h2 hp
    exact prStep_get_pull_err repo p j pr_obj num e hc h1 h2 hp
  · intro repo p j pr_obj num pr e hc h1 h2 hpull hf
    exact prStep_files_err repo p j pr_obj num pr e hc h1 h2 hpull hf

theorem c6_witness :
    apiErr (Github.get_repo ⟨fun _ => .ghExc "boom"⟩ "o/r") = some (.gh "boom")
      ∧ get_changed_files ⟨fun _ => .ghExc "boom"⟩ "o/r" none none
          (fun _ => none) .fileNotFound
        = ⟨[], ["GitHub API error: boom"]⟩ :=
  ⟨rfl,
   (c6_client_errors_absorbed ⟨fun _ => .ghExc "boom"⟩ "o/r" none none
      (fun _ => none) .fileNotFound).1 (.gh "boom") rfl⟩

/-- C2 as stated is false: with the event file present and holding a
`pull_request` object, a `GithubException` raised while fetching the
pull request does not fall through to the ref-comparison path (which
would return `["a.txt"]`, as the second conjunct shows for the same
client and environment when the event file instead fails to parse);
it escapes to the outer handler, which logs it and returns `[]`. -/
theorem c2_counterexample :
    get_changed_files
        ⟨fun _ => .ok ⟨fun _ => .ghExc "boom", fun _ _ => .ok ["a.txt"]⟩⟩
        "o/r" none none
        (fun k => if k = "GITHUB_EVENT_PATH" then some "/evt"
                  else if k = "GITHUB_SHA" then some "abc" else none)
        (.ok (.obj [("pull_request", .obj [("number", .num 1)])]))
      = ⟨[], ["GitHub API error: boom"]⟩
    ∧ get_changed_files
        ⟨fun _ => .ok ⟨fun _ => .ghExc "boom", fun _ _ => .ok ["a.txt"]⟩⟩
        "o/r" none none
        (fun k => if k = "GITHUB_EVENT_PATH" then some "/evt"
                  else if k = "GITHUB_SHA" then some "abc" else none)
        .decodeError
      = ⟨["a.txt"], []⟩
    ∧ (⟨[], ["GitHub API error: boom"]⟩ : GcfResult) ≠ ⟨["a.txt"], []⟩ :=
  ⟨rfl, rfl, by decide⟩

/-- C2 amended: when the event file is present, failures of reading or
parsing it, or of extracting the pull-request number (missing file,
malformed data, absent key), are swallowed and fall through to the
ref-comparison path (which then runs, last conjunct); but errors raised
by the client while fetching the pull request or its file list escape
the block and are caught by the outer handler, which logs them and
returns the empty list without reaching the ref comparison. -/
theorem c2_amended_pr_step_fallthrough :
    (∀ (repo : Repo) (p : String),
        prStep repo (some p) .fileNotFound = .fallthrough)
  ∧ (∀ (repo : Repo) (p : String),
        prStep repo (some p) .decodeError = .fallthrough)
  ∧ (∀ (repo : Repo) (p : String) (j : Jsn),
        py_contains j "pull_request" = .ok false →
        prStep repo (some p) (.ok j) = .fallthrough)
  ∧ (∀ (repo : Repo) (p : String) (j pr_obj : Jsn),
        py_contains j "pull_request" = .ok true →
        py_getitem j "pull_request" = .ok pr_obj →
        py_getitem pr_obj "number" = .error .keyError →
        prStep repo (some p) (.ok j) = .fallthrough)
  ∧ (∀ (repo : Repo) (p : String) (j pr_obj num : Jsn) (e : Exc),
        py_contains j "pull_request" = .ok true →
        py_getitem j "pull_request" = .ok pr_obj →
        py_getitem pr_obj "number" = .ok num →
        apiErr (Repo.get_pull repo num) = some e →
        prStep repo (some p) (.ok j) = .raise e)
  ∧ (∀ (gh : Github) (repo_name : String) (base_ref head_ref : Option String)
        (env : String → Option String) (ev : EventRead) (repo : Repo) (e : Exc),
        gh.get_repo repo_name = .ok repo →
        prStep repo (env "GITHUB_EVENT_PATH") ev = .raise e →
        get_changed_files gh repo_name base_ref head_ref env ev
          = ⟨[], [excLog e]⟩)
  ∧ (∀ (gh : Github) (repo_name : String) (base_ref head_ref : Option String)
        (env : String → Option String) (ev : EventRead) (repo : Repo)
        (files : List String),
        gh.get_repo repo_name = .ok repo →
        prStep repo (env "GITHUB_EVENT_PATH") ev = .fallthrough →
        falsyStr (resolve_head_ref head_ref env) = false →
        repo.compare (resolve_base_ref base_ref env)
          ((resolve_head_ref head_ref env).getD "") = .ok files →
        get_changed_files gh repo_name base_ref head_ref env ev
          = ⟨files, []⟩) := by
  refine ⟨prStep_fileNotFound, prStep_decodeError, prStep_no_key,
    prStep_missing_number, ?_, ?_, ?_⟩
  · intro repo p j pr_obj num e hc h1 h2 hp
    exact prStep_get_pull_err repo p j pr_obj num e hc h1 h2 hp
  · intro gh repo_name base_ref head_ref env ev repo e hr hp
    exact gcf_prStep_raise gh repo_name base_ref head_ref env ev repo e hr hp
  · intro gh repo_name base_ref head_ref env ev repo files hr hp hh hc
    exact gcf_compare_ok gh repo_name base_ref head_ref env ev repo files hr hp hh hc

theorem c2_amended_witness :
    prStep ⟨fun _ => .ghExc "boom", fun _ _ => .ok ["a.txt"]⟩ (some "/evt")
        (.ok (.obj [("pull_request", .obj [("number", .num 1)])]))
      = .raise (.gh "boom")
    ∧ prStep ⟨fun _ => .ghExc "boom", fun _ _ => .ok ["a.txt"]⟩ (some "/evt")
        .fileNotFound
      = .fallthrough :=
  ⟨(c2_amended_pr_step_fallthrough).2.2.2.2.1
      ⟨fun _ => .ghExc "boom", fun _ _ => .ok ["a.txt"]⟩ "/evt"
      (.obj [("pull_request", .obj [("number", .num 1)])])
      (.obj [("number", .num 1)]) (.num 1) (.gh "boom") rfl rfl rfl rfl,
   (c2_amended_pr_step_fallthrough).1
      ⟨fun _ => .ghExc "boom", fun _ _ => .ok ["a.txt"]⟩ "/evt"⟩

/-- C5: `main` validates patterns text, then token, then repository name;
the first missing input yields its diagnostic on stderr, exit code 1 and
no outputs; when all three are present and the only modelled exception
source (`parse_patterns`) succeeds, `main` prints its logs, emits the
three outputs (match flag, count, files JSON) to the configured sink and
exits with code 0, whether or not any file matched. -/
theorem c5_main_validation_and_outputs (env : String → Option String)
    (gh : Github) (ev : EventRead) :
    (input_patterns env = "" →
        main env gh ev = ⟨1, [], ["Error: No patterns provided"], []⟩)
  ∧ (input_patterns env ≠ "" → main_token env = "" →
        main env gh ev = ⟨1, [], ["Error: No GitHub token provided"], []⟩)
  ∧ (input_patterns env ≠ "" → main_token env ≠ "" → main_repo_name env = "" →
        main env gh ev = ⟨1, [], ["Error: No repository name found"], []⟩)
  ∧ (∀ patterns : List String,
        input_patterns env ≠ "" → main_token env ≠ "" → main_repo_name env ≠ "" →
        parse_patterns (input_patterns env) = .ok patterns →
        main env gh ev =
          (let matched := match_files
              (get_changed_files gh (main_repo_name env) (env "INPUT_BASE_REF")
                (env "INPUT_HEAD_REF") env ev).files patterns
           let flag := if matched.isEmpty then "false" else "true"
           let lines := ["matches=" ++ flag,
                         "count=" ++ toString matched.length,
                         "files=" ++ json_dumps_list matched]
           { exitCode := 0
             stdout := ["Parsed patterns: " ++ py_repr_list patterns,
                        "Matched files: " ++ py_repr_list matched,
                        "Has matches: "
                          ++ (if matched.isEmpty then "False" else "True")]
               ++ (if (env "GITHUB_OUTPUT").isSome then []
                   else ["::set-output name=matches::" ++ flag,
                         "::set-output name=count::" ++ toString matched.length,
                         "::set-output name=files::" ++ json_dumps_list matched])
             stderr := (get_changed_files gh (main_repo_name env)
                (env "INPUT_BASE_REF") (env "INPUT_HEAD_REF") env ev).stderr
             outputFile :=
               if (env "GITHUB_OUTPUT").isSome then lines else [] })) := by
  refine ⟨?_, ?_, ?_, ?_⟩
  · intro h1
    simp [main, h1]
  · intro h1 h2
    simp [main, h1, h2]
  · intro h1 h2 h3
    simp [main, h1, h2, h3]
  · intro patterns h1 h2 h3 hp
    by_cases hgo : (env "GITHUB_OUTPUT").isSome
      <;> simp [main, h1, h2, h3, hp, set_output, hgo]

theorem c5_witness :
    main (fun _ => none) ⟨fun _ => .exc "offline"⟩ .fileNotFound
        = ⟨1, [], ["Error: No patterns provided"], []⟩
  ∧ main (fun k => if k = "INPUT_PATTERNS" then some "*.py" else none)
        ⟨fun _ => .exc "offline"⟩ .fileNotFound
        = ⟨1, [], ["Error: No GitHub token provided"], []⟩
  ∧ main (fun k => if k = "INPUT_PATTERNS" then some "*.py"
          else if k = "INPUT_TOKEN" then some "t" else none)
        ⟨fun _ => .exc "offline"⟩ .fileNotFound
        = ⟨1, [], ["Error: No repository name found"], []⟩
  ∧ (main (fun k => if k = "INPUT_PATTERNS" then some "*.py"
          else if k = "INPUT_TOKEN" then some "t"
          else if k = "GITHUB_REPOSITORY" then some "o/r"
          else if k = "GITHUB_OUTPUT" then some "/out" else none)
        ⟨fun _ => .exc "offline"⟩ .fileNotFound).exitCode = 0
  ∧ (main (fun k => if k = "INPUT_PATTERNS" then some "*.py"
          else if k = "INPUT_TOKEN" then some "t"
          else if k = "GITHUB_REPOSITORY" then some "o/r"
          else if k = "GITHUB_OUTPUT" then some "/out" else none)
        ⟨fun _ => .exc "offline"⟩ .fileNotFound).outputFile
      = ["matches=false", "count=0", "files=[]"] := by
  refine ⟨?_, ?_, ?_, ?_, ?_⟩
  · exact (c5_main_validation_and_outputs (fun _ => none)
      ⟨fun _ => .exc "offline"⟩ .fileNotFound).1 rfl
  · exact (c5_main_validation_and_outputs
      (fun k => if k = "INPUT_PATTERNS" then some "*.py" else none)
      ⟨fun _ => .exc "offline"⟩ .fileNotFound).2.1 (by decide) rfl
  · exact (c5_main_validation_and_outputs
      (fun k => if k = "INPUT_PATTERNS" then some "*.py"
        else if k = "INPUT_TOKEN" then some "t" else none)
      ⟨fun _ => .exc "offline"⟩ .fileNotFound).2.2.1 (by decide) (by decide) rfl
  · have h := (c5_main_validation_and_outputs
      (fun k => if k = "INPUT_PATTERNS" then some "*.py"
        else if k = "INPUT_TOKEN" then some "t"
        else if k = "GITHUB_REPOSITORY" then some "o/r"
        else if k = "GITHUB_OUTPUT" then some "/out" else none)
      ⟨fun _ => .exc "offline"⟩ .fileNotFound).2.2.2
      ["*.py"] (by decide) (by decide) (by decide) rfl
    rw [h]
  · have h := (c5_main_validation_and_outputs
      (fun k => if k = "INPUT_PATTERNS" then some "*.py"
        else if k = "INPUT_TOKEN" then some "t"
        else if k = "GITHUB_REPOSITORY" then some "o/r"
        else if k = "GITHUB_OUTPUT" then some "/out" else none)
      ⟨fun _ => .exc "offline"⟩ .fileNotFound).2.2.2
      ["*.py"] (by decide) (by decide) (by decide) rfl
    rw [h]
    rfl

end FileFilterAction
